import Mathlib

/-!
Verification of the code-exploration agent in `main.py` (an Ollama-driven
code-analysis agent).  The definitions below are a shallow embedding of the
relevant Python functions: Python strings are modelled at code-point level as
Lean `String`/`List Char`, POSIX paths as lists of components, the filesystem
and the model backend as explicit parameters.  Every definition is transcribed
from the source; definitions written from the specification's words instead
are explicitly marked as such in their doc string.
-/

namespace DebugAgent

/-! ### Python string primitives (code-point level models of `str` methods) -/

/-- Python `str.isspace` characters relevant to `strip()`. -/
def isPySpace (c : Char) : Bool :=
  c == ' ' || c == '\t' || c == '\n' || c == '\r' || c == '\x0b' || c == '\x0c'

/-- Drop trailing characters satisfying `p`. -/
def dropTrailing (p : Char → Bool) (cs : List Char) : List Char :=
  (cs.reverse.dropWhile p).reverse

/-- Python `s.strip()`. -/
def pyStrip (s : String) : String :=
  String.mk (dropTrailing isPySpace (s.data.dropWhile isPySpace))

/-- Python `s.strip(chars)`: remove any of `bad` from both ends. -/
def pyStripCharSet (bad : List Char) (s : String) : String :=
  String.mk (dropTrailing (fun c => bad.contains c) (s.data.dropWhile (fun c => bad.contains c)))

/-- Python `s.upper()` (ASCII model; the source only compares ASCII keywords). -/
def pyUpper (s : String) : String := String.mk (s.data.map Char.toUpper)

/-- Python `s[:n]`. -/
def pyTake (s : String) (n : Nat) : String := String.mk (s.data.take n)

/-- Python `s[n:]`. -/
def pyDrop (s : String) (n : Nat) : String := String.mk (s.data.drop n)

/-- Python `len(s)` (code points). -/
def pyLen (s : String) : Nat := s.data.length

/-- Python `s.startswith(pre)`. -/
def pyStartsWith (s pre : String) : Bool := pre.data.isPrefixOf s.data

/-- Substring test on char lists (Python `needle in hay`). -/
def hasSubstr (needle : List Char) : List Char → Bool
  | [] => needle.isEmpty
  | c :: rest => needle.isPrefixOf (c :: rest) || hasSubstr needle rest

/-- Python `sub in s`. -/
def pyContains (s sub : String) : Bool := hasSubstr sub.data s.data

/-- Python `s.rstrip('.')`. -/
def pyRstripDots (s : String) : String :=
  String.mk (dropTrailing (fun c => c == '.') s.data)

/-- Python `s.replace(chr(96), '')`: remove every backtick. -/
def removeBackticks (s : String) : String :=
  String.mk (s.data.filter (fun c => c != '\x60'))

/-- Concatenate a list of strings. -/
def strConcat (l : List String) : String := l.foldr (· ++ ·) ""

/-- Python `s.split(sep, 1)`: split at the first occurrence of `sep` only. -/
def splitOnceAux (sep : List Char) : List Char → List Char → String × Option String
  | acc, [] => (String.mk acc, none)
  | acc, c :: cs =>
    if sep.isPrefixOf (c :: cs) then
      (String.mk acc, some (String.mk ((c :: cs).drop sep.length)))
    else splitOnceAux sep (acc ++ [c]) cs

/-- Python `s.split(sep, 1)` wrapper. -/
def splitOnce (s sep : String) : String × Option String :=
  splitOnceAux sep.data [] s.data

/-- Split a char list on every occurrence of a single separator char
(the single-character case of Python `s.split(sep)`). -/
def splitChar (sep : Char) : List Char → List Char → List (List Char)
  | acc, [] => [acc]
  | acc, c :: cs =>
    if c = sep then acc :: splitChar sep [] cs else splitChar sep (acc ++ [c]) cs

/-- Join a list of strings with a separator (Python `sep.join(l)`). -/
def joinWith (sep : String) : List String → String
  | [] => ""
  | [x] => x
  | x :: y :: rest => x ++ sep ++ joinWith sep (y :: rest)

/-! ### POSIX paths (`pathlib.Path`), components model -/

/-- A `pathlib.Path`: an absolute flag plus components.  `Path(s)` drops empty
and `.` components; `..` components are kept (they are only collapsed by
`resolve()`). -/
structure PyPath where
  absolute : Bool
  comps : List String
deriving DecidableEq

/-- `pathlib.Path(s)` for POSIX strings. -/
def parsePath (s : String) : PyPath :=
  ⟨(match s.data with | '/' :: _ => true | _ => false),
   ((splitChar '/' [] s.data).map String.mk).filter (fun c => c != "" && c != ".")⟩

/-- Lexical part of `Path.resolve()`: collapse `..` components (clamped at the
filesystem root, as `os.path.realpath` does).  Symbolic links are outside the
model; the program's containment checks are all made on the resolved form, so
the theorems below are about the lexical resolution. -/
def resolveComps : List String → List String → List String
  | acc, [] => acc
  | acc, c :: cs =>
    if c = ".." then resolveComps acc.dropLast cs else resolveComps (acc ++ [c]) cs

/-- `root in p.parents` for absolute resolved paths: `root` is a proper
ancestor, i.e. a strictly shorter prefix of the component list. -/
def inParentsB (root r : List String) : Bool :=
  root.isPrefixOf r && decide (root.length < r.length)

/-- `OllamaCodingAgent._resolve_path` (main.py lines 572-596): resolve a
(possibly relative) path string to an absolute path inside the project, or
`None`.  `root` is the resolved `project_path`; the result is the component
list of the returned absolute path.  The `except OSError` branch (invalid
Windows paths) also returns `None` and is subsumed by the lexical model. -/
def resolvePath (root : List String) (s : String) : Option (List String) :=
  if s = "" then none
  else
    let p := parsePath s
    if p.absolute then
      let r := resolveComps [] p.comps
      if inParentsB root r || root == r.dropLast then some r else none
    else
      let r := resolveComps [] (root ++ p.comps)
      if inParentsB root r || root == r then some r else none

/-! ### Filesystem model and `read_file_content` -/

/-- Observable attributes of a file, as `read_file_content` queries them:
byte size, whether the first 1024 bytes contain a NUL byte, the decoded text
(`errors='ignore'`), and flags for the environment raising `OSError` on
`stat` resp. an exception during `open`/`read`. -/
structure FileAttrs where
  size : Nat
  hasNul : Bool
  text : String
  statError : Bool
  readError : Bool
deriving DecidableEq

/-- A regular file with no error conditions. -/
def mkAttrs (size : Nat) (text : String) : FileAttrs := ⟨size, false, text, false, false⟩

/-- Filesystem: a finite map from resolved absolute paths to file attributes.
Paths not present are not regular files (directories or missing entries). -/
structure PyFS where
  files : List (List String × FileAttrs)
deriving DecidableEq

/-- `Path.is_file()` on a resolved path. -/
def PyFS.isFile (fs : PyFS) (p : List String) : Bool :=
  (fs.files.find? (fun e => e.1 == p)).isSome

/-- Attributes of the file at a resolved path. -/
def PyFS.attrs (fs : PyFS) (p : List String) : Option FileAttrs :=
  (fs.files.find? (fun e => e.1 == p)).map Prod.snd

/-- `Path.name` (last component; empty for the filesystem root). -/
def nameOf (p : List String) : String := (p.getLast?).getD ""

/-- `KnowledgeBase._get_relative_path` (lines 39-51) on resolved component
lists: if the project root is a parent (or the direct parent) of the path,
return the root-relative string, else fall back to the file name. -/
def relPathStr (root absp : List String) : String :=
  if inParentsB root absp || root == absp.dropLast then
    joinWith "/" (absp.drop root.length)
  else nameOf absp

/-- `MAX_FILE_READ_SIZE` default (line 18). -/
def MAX_FILE_READ_SIZE : Nat := 150000

/-- The oversized-file branch of `read_file_content` (lines 315-328), under a
one-byte-per-char text model: read the first half, seek towards the end, read
again, and pick the truncation marker depending on `f.tell() < size`. -/
def truncatedRead (a : FileAttrs) : String :=
  let half := MAX_FILE_READ_SIZE / 2
  let startContent := pyTake a.text half
  let seekPos := max half (a.size - half)
  let endContent := pyTake (pyDrop a.text seekPos) half
  let tell := seekPos + min half (pyLen a.text - seekPos)
  if tell < a.size then
    startContent ++ "\n\n[... contenu tronqué (fichier trop volumineux) ...]\n\n" ++ endContent
  else startContent ++ "\n[... fin du fichier tronquée ...]"

/-- `OllamaCodingAgent.read_file_content` (lines 262-348).  `cwd` is the
process working directory (used only when the input string is relative, since
`Path(s).resolve()` resolves relative strings against the cwd); `root` is the
resolved `project_path`.  The modelled exception texts (`[OSError]`,
`[Exception]`) stand for the interpolated Python exception; only the fixed
message prefixes matter to callers.  The outer `except Exception` branch
(line 345) is unreachable in the pure model. -/
def read_file_content (fs : PyFS) (cwd root : List String) (s : String) : String :=
  let p := parsePath s
  let abs0 := resolveComps [] (if p.absolute then p.comps else cwd ++ p.comps)
  let proceed : List String → String := fun absp =>
    let rel := relPathStr root absp
    if ! fs.isFile absp then
      "Erreur: '" ++ rel ++ "' n'est pas un fichier valide ou n'existe pas."
    else
      match fs.attrs absp with
      | none => "Erreur: '" ++ rel ++ "' n'est pas un fichier valide ou n'existe pas."
      | some a =>
        if a.statError then
          "Erreur: Impossible d'obtenir la taille de '" ++ rel ++ "': [OSError]"
        else if a.size == 0 then ""
        else if a.hasNul then
          "Erreur: Fichier '" ++ rel ++ "' semble binaire."
        else if a.size > MAX_FILE_READ_SIZE then
          if a.readError then
            "Erreur lors de la lecture partielle de '" ++ rel ++ "': [Exception]"
          else truncatedRead a
        else if a.readError then
          "Erreur lors de la lecture complète de '" ++ rel ++ "': [Exception]"
        else a.text
  if ! (inParentsB root abs0 || root == abs0.dropLast) then
    let potential := resolveComps [] (if p.absolute then p.comps else root ++ p.comps)
    if fs.isFile potential && inParentsB root potential then proceed potential
    else "Erreur Sécurité: Tentative de lecture hors du dossier projet: '" ++ s ++ "'"
  else proceed abs0

/-- The branch condition of `_execute_read_file` (line 632): content is stored
as file content exactly when it does not start with `"Erreur:"`. -/
def readFileHandlerStores (content : String) : Bool :=
  ! pyStartsWith content "Erreur:"

/-! ### KnowledgeBase and `get_context_summary` -/

/-- `KnowledgeBase` state (lines 26-37).  `fileContents` models the
insertion-ordered dict `file_contents` (relative path, content);
`structureJson` is `json.dumps(project_structure, indent=2)` as a string (the
directory-tree renderer is an external collaborator in the design, so its
output is a parameter). -/
structure KB where
  projectPathStr : String
  projectType : String
  structureJson : Option String
  fileContents : List (String × String)
  analysisNotes : List String
  explorationHistory : List String
  explorationPlan : List String
deriving DecidableEq

/-- Lexicographic `<` on char lists (Python compares strings by code point). -/
def strLtL : List Char → List Char → Bool
  | [], [] => false
  | [], _ :: _ => true
  | _ :: _, [] => false
  | a :: as, b :: bs => if a = b then strLtL as bs else decide (a.val < b.val)

/-- Insert into a key-sorted association list. -/
def insertByKey {α : Type} (p : String × α) : List (String × α) → List (String × α)
  | [] => [p]
  | q :: rest =>
    if strLtL p.1.data q.1.data || p.1 == q.1 then p :: q :: rest
    else q :: insertByKey p rest

/-- Python `sorted(d.items())`: sort by key (keys are unique dict keys, so the
tuple comparison never reaches the second component). -/
def sortByKey {α : Type} : List (String × α) → List (String × α)
  | [] => []
  | p :: rest => insertByKey p (sortByKey rest)

/-- `MAX_STRUCTURE_LENGTH` (line 100). -/
def MAX_STRUCTURE_LENGTH : Nat := 2500

/-- `MAX_FILES_IN_SUMMARY` (line 113). -/
def MAX_FILES_IN_SUMMARY : Nat := 10

/-- `MAX_HISTORY_ITEMS_IN_SUMMARY` (line 129). -/
def MAX_HISTORY_ITEMS_IN_SUMMARY : Nat := 15

/-- `MAX_PROMPT_LENGTH` default (line 24). -/
def MAX_PROMPT_LENGTH : Nat := 7500

/-- The truncation suffix appended to an oversized structure rendering
(line 102). -/
def structTruncSuffix : String :=
  "\n... (structure tronquée à " ++ toString MAX_STRUCTURE_LENGTH ++ " caractères)"

/-- Size-capping of the structure JSON (lines 100-102). -/
def cappedStructure (s : String) : String :=
  if pyLen s > MAX_STRUCTURE_LENGTH then pyTake s MAX_STRUCTURE_LENGTH ++ structTruncSuffix
  else s

/-- Structure section of the summary (lines 95-106; the `except` formatting
branch cannot fire on an already-rendered string). -/
def structPart (kb : KB) : String :=
  match kb.structureJson with
  | none => ""
  | some s =>
    "\nStructure du projet (fichiers/dossiers détectés, chemins relatifs):\n```json\n"
      ++ cappedStructure s ++ "\n```\n"

/-- One file line of the summary (line 117). -/
def fileEntryLine (path content : String) : String :=
  "- `" ++ path ++ "`: " ++ pyStrip (removeBackticks (pyTake content 150)) ++ "...\n"

/-- The file entries that the summary displays: the first
`MAX_FILES_IN_SUMMARY` of the path-sorted items (lines 115-121). -/
def filesShown (kb : KB) : List (String × String) :=
  (sortByKey kb.fileContents).take MAX_FILES_IN_SUMMARY

/-- Files section of the summary (lines 108-121).  Note the loop appends the
surplus line as soon as `count` reaches the cap, hence whenever at least
`MAX_FILES_IN_SUMMARY` files exist. -/
def filesPart (kb : KB) : String :=
  "\nFichiers déjà explorés (chemins relatifs) et extraits/résumés:\n" ++
  (if kb.fileContents.isEmpty then "(Aucun fichier lu pour le moment)\n"
   else
     strConcat ((filesShown kb).map (fun pc => fileEntryLine pc.1 pc.2)) ++
     (if kb.fileContents.length ≥ MAX_FILES_IN_SUMMARY then
        "... et " ++ toString (kb.fileContents.length - MAX_FILES_IN_SUMMARY)
          ++ " autres fichiers lus.\n"
      else ""))

/-- `combined_info = analysis_notes + exploration_history` (line 124). -/
def combinedInfo (kb : KB) : List String :=
  kb.analysisNotes ++ kb.explorationHistory

/-- The displayed tail of the combined list (lines 130-131):
`combined_info[max(0, len - 15):]`. -/
def combinedShown (kb : KB) : List String :=
  let c := combinedInfo kb
  c.drop (c.length - MAX_HISTORY_ITEMS_IN_SUMMARY)

/-- Notes/history section of the summary (lines 123-136). -/
def combinedPart (kb : KB) : String :=
  "\nNotes d'analyse et historique récent des actions:\n" ++
  (let c := combinedInfo kb
   if c.isEmpty then "(Aucune note ou action enregistrée)\n"
   else
     strConcat ((combinedShown kb).map (fun info => "- " ++ info ++ "\n")) ++
     (if c.length - MAX_HISTORY_ITEMS_IN_SUMMARY > 0 then
        "... (" ++ toString (c.length - MAX_HISTORY_ITEMS_IN_SUMMARY)
          ++ " notes/actions précédentes omises pour la concision)\n"
      else ""))

/-- Header of the summary (lines 90-93). -/
def headerPart (kb : KB) (q : String) : String :=
  "Problème utilisateur: \"" ++ q ++ "\"\n" ++
  "Chemin du projet: " ++ kb.projectPathStr ++ "\n" ++
  "TYPE DE PROJET ESTIMÉ: " ++ kb.projectType ++ "\n"

/-- Optional current-plan section (lines 139-142). -/
def planPart (kb : KB) (includePlan : Bool) : String :=
  if includePlan && ! kb.explorationPlan.isEmpty then
    "\nPlan d'exploration actuel (prochaines étapes prévues):\n" ++
    strConcat ((kb.explorationPlan.enum).map
      (fun st => toString (st.1 + 1) ++ ". " ++ st.2 ++ "\n"))
  else ""

/-- `KnowledgeBase.get_context_summary` (lines 88-150).  The final
length check (line 145) only logs a warning and does not alter the string. -/
def get_context_summary (kb : KB) (q : String) (includePlan : Bool) : String :=
  headerPart kb q ++ structPart kb ++ filesPart kb ++ combinedPart kb
    ++ planPart kb includePlan

/-! ### `_ollama_request` and `evaluate_progress` -/

/-- Prompt truncation in `_ollama_request` (lines 166-170): cut to the first
`MAX_PROMPT_LENGTH` chars and append the marker. -/
def promptTruncated (prompt : String) : String :=
  if pyLen prompt > MAX_PROMPT_LENGTH then
    pyTake prompt MAX_PROMPT_LENGTH ++ "\n... (Fin du prompt tronquée)"
  else prompt

/-- `_ollama_request` (lines 163-194): the model backend is the `oracle`
parameter (`none` models transport errors and malformed responses); a
successful reply is stripped (line 183). -/
def ollamaRequest (oracle : String → Option String) (prompt : String) : Option String :=
  (oracle (promptTruncated prompt)).map pyStrip

/-- The evaluation prompt of `evaluate_progress` (lines 1054-1063),
transcribed with the triple-quoted literal's indentation. -/
def evalPromptText (q ctx : String) : String :=
  "\n        Contexte collecté jusqu'à présent pour répondre à la question : \""
    ++ q ++ "\"\n        ```\n        " ++ ctx
    ++ "\n        ```\n        ---\n        Question pour l'IA: Penses-tu avoir suffisamment d'informations **fiables et vérifiées** dans le contexte ci-dessus pour fournir une réponse **complète et précise** à la question initiale de l'utilisateur ?\n\n        Réponds **uniquement** par \"OUI\" ou \"NON\". Ne justifie PAS ta réponse.\n        "

/-- Response cleaning of `evaluate_progress` (line 1070):
`evaluation.strip().upper().rstrip('.')`. -/
def cleanEvalResponse (r : String) : String := pyRstripDots (pyUpper (pyStrip r))

/-- `OllamaCodingAgent.evaluate_progress` (lines 1049-1085).  The second
component counts the model requests issued (the single `_ollama_request` of
line 1066).  Returns `true` only on a cleaned reply equal to `OUI`; `NON`,
any other reply, and an absent reply all yield `false`. -/
def evaluate_progress (kb : KB) (q : String) (oracle : String → Option String) :
    Bool × Nat :=
  let ctx := get_context_summary kb q false
  match ollamaRequest oracle (evalPromptText q ctx) with
  | some ev => (if cleanEvalResponse ev == "OUI" then true else false, 1)
  | none => (false, 1)

/-! ### `_parse_search_args` and `_execute_search_code` -/

/-- Matcher for the tail `\s*(?:dans\s+(.+))?$` of the search-args regex
(line 818): after the closing quote, optional spaces, then either the end of
the string or the literal `dans`, at least one space, and a non-empty
location (the capture).  Returns `none` when the tail does not match. -/
def tailAfterQuote (cs : List Char) : Option (Option String) :=
  let t := cs.dropWhile isPySpace
  if t.isEmpty then some none
  else if t.take 4 = "dans".data then
    let u := t.drop 4
    if (u.takeWhile isPySpace).isEmpty then none
    else
      let rest := u.dropWhile isPySpace
      if rest.isEmpty then none else some (some (String.mk rest))
  else none

/-- Scan for the closing quote realising the lazy `(.*?)\1` of the regex: the
first closing-quote position whose tail matches wins. -/
def scanForQuote (q : Char) : List Char → List Char → Option (String × Option String)
  | _, [] => none
  | acc, c :: cs =>
    if c = q then
      match tailAfterQuote cs with
      | some loc => some (String.mk acc, loc)
      | none => scanForQuote q (acc ++ [c]) cs
    else scanForQuote q (acc ++ [c]) cs

/-- `re.match(r"^\s*([quote])(.*?)\1\s*(?:dans\s+(.+))?$", args)` of
`_parse_search_args` (line 818): quoted term plus optional location. -/
def matchQuotedTerm (args : String) : Option (String × Option String) :=
  match args.data.dropWhile isPySpace with
  | [] => none
  | c :: cs => if c = '"' ∨ c = '\'' then scanForQuote c [] cs else none

/-- The data `_parse_search_args` hands to the search proper. -/
structure ParsedSearch where
  term : String
  locationStr : String
  targetPath : List String
  pathLog : String
  targetIsFile : Bool
deriving DecidableEq

/-- The names bound at module top level by the imports of main.py
(lines 1-7): `ollama, os, json, re, Path, logging, Dict, List, Optional,
Any`.  Neither `shutil` nor `subprocess` is ever imported, although
`_execute_search_code` uses both (lines 676 and 697). -/
def moduleTopLevelNames : List String :=
  ["ollama", "os", "json", "re", "Path", "logging", "Dict", "List", "Optional", "Any"]

/-- `_parse_search_args` (lines 809-850).  When the quoted-term regex
matches, line 821 evaluates `match.group(4)` although the regex has only
three groups, so Python raises `IndexError: no such group` (the comment on
line 817 wrongly documents the location as group 4); this is modelled as the
`Except.error`.  Otherwise the quote-less fallback splits on `" dans "`; a
missing term is the recorded failure (`Except.ok none`), else the location is
resolved through `_resolve_path` with the whole project as fallback. -/
def parseSearchArgs (fs : PyFS) (root : List String) (args : String) :
    Except String (Option ParsedSearch) :=
  match matchQuotedTerm args with
  | some _ => .error "IndexError: no such group"
  | none =>
    let parts := splitOnce args " dans "
    let term := pyStripCharSet ['\'', '"', '\x60'] (pyStrip parts.1)
    let locStr :=
      match parts.2 with
      | some rest => pyStripCharSet ['\'', '"', '\x60'] (pyStrip rest)
      | none => "."
    if term = "" then .ok none
    else
      match resolvePath root locStr with
      | none =>
        .ok (some ⟨term, locStr, root,
          "projet entier (chemin '" ++ locStr ++ "' invalide/hors projet)", false⟩)
      | some target =>
        .ok (some ⟨term, locStr, target,
          "'" ++ relPathStr root target ++ "'", fs.isFile target⟩)

/-- Outcome of the `subprocess.run` invocation of ripgrep (lines 693-736):
normal completion with an exit code and parsed `path:count` stdout lines,
`subprocess.TimeoutExpired`, `FileNotFoundError`, or another exception. -/
inductive RgOutcome where
  | completed (exitCode : Nat) (stdoutCounts : List (String × Nat))
  | timedOut
  | notExecutable
  | unexpectedError (excName : String)
deriving DecidableEq

/-- Environment of one search execution: whether `shutil.which('rg')` finds
ripgrep, the outcome of its invocation, and the result of the pure-Python
`os.walk` fallback (the directory walk is filesystem I/O, abstracted into the
environment; `pythonError` models the `except Exception` of line 776). -/
structure SearchEnv where
  rgPresent : Bool
  rgRun : RgOutcome
  pythonResults : List (String × Nat)
  pythonError : Option String
deriving DecidableEq

/-- What `_execute_search_code` records at the end (lines 782-807). -/
structure SearchRecord where
  searchMethod : String
  foundResults : List (String × Nat)
  historyEntry : String
  notes : List String
deriving DecidableEq

/-- The ripgrep branch (lines 676-736): method string, found results, notes.
Exit code 0 parses the counts, exit code 1 is a clean zero-match, any other
exit code logs an error note but leaves `search_method` unchanged (line
721-724); timeout and exceptions overwrite `search_method` with an error
marker. -/
def rgPhase (env : SearchEnv) (term : String) : String × List (String × Nat) × List String :=
  match env.rgRun with
  | .completed 0 out => ("ripgrep (rg)", out, [])
  | .completed 1 _ => ("ripgrep (rg)", [], [])
  | .completed _ _ =>
    ("ripgrep (rg)", [], ["Erreur recherche '" ++ term ++ "' avec rg: [stderr]..."])
  | .timedOut =>
    ("Erreur (rg timeout)", [],
      ["Erreur recherche '" ++ term ++ "' avec rg: Timeout (60s)"])
  | .notExecutable => ("Erreur (rg non exécutable)", [], [])
  | .unexpectedError n =>
    ("Erreur (rg: " ++ n ++ ")", [],
      ["Erreur recherche '" ++ term ++ "' avec rg: " ++ n])

/-- The pure-Python fallback branch (lines 739-779). -/
def pyPhase (env : SearchEnv) (term : String) : String × List (String × Nat) × List String :=
  match env.pythonError with
  | none => ("Pure Python (os.walk)", env.pythonResults, [])
  | some e =>
    ("Erreur (Python: " ++ e ++ ")", [],
      ["Erreur recherche Python pour '" ++ term ++ "': " ++ e])

/-- The capped result listing (lines 786-789). -/
def resultsStr (sorted : List (String × Nat)) : String :=
  let s := joinWith ", "
    (sorted.map (fun r => "`" ++ r.1 ++ "` (" ++ toString r.2 ++ ")"))
  if pyLen s > 300 then pyTake s 300 ++ "..." else s

/-- The body of `_execute_search_code` below the parse (lines 670-807), as it
reads in the source: run a strategy, then record note and history.  Because
`shutil` is never imported the interpreter never actually reaches this code
(see `executeSearchCode`); it is embedded to analyse the recording logic the
function itself defines.  History is tagged `Trouvé.`/`Non trouvé.` whenever
`search_method` contains no `Erreur` marker, and `Échec.` otherwise. -/
def searchBody (env : SearchEnv) (term pathLog : String) : SearchRecord :=
  let phase := if env.rgPresent then rgPhase env term else pyPhase env term
  let method := phase.1
  let found0 := phase.2.1
  let notes0 := phase.2.2
  let found := if found0.isEmpty then found0 else sortByKey found0
  let summary :=
    if ! found.isEmpty then
      "Trouvé '" ++ term ++ "' dans " ++ toString found.length ++ " fichier(s) via "
        ++ method ++ ": " ++ resultsStr found ++ "."
    else if pyContains method "Erreur" then
      "Recherche de '" ++ term ++ "' via " ++ method ++ " a échoué. Voir logs pour détails."
    else
      "Terme '" ++ term ++ "' non trouvé via " ++ method ++ " dans " ++ pathLog ++ "."
  if ! pyContains method "Erreur" then
    ⟨method, found,
      "Recherché '" ++ term ++ "' dans " ++ pathLog ++ " (" ++ method ++ "). "
        ++ (if ! found.isEmpty then "Trouvé." else "Non trouvé."),
      notes0 ++ ["Résultat recherche '" ++ term ++ "' dans " ++ pathLog ++ " ("
        ++ method ++ "): " ++ summary]⟩
  else
    ⟨method, found,
      "Tentative recherche '" ++ term ++ "' dans " ++ pathLog ++ " (" ++ method
        ++ "). Échec.", notes0⟩

/-- `_execute_search_code` (lines 663-807) at the interpreter level: first
`_parse_search_args` runs (raising `IndexError` on any quoted term, or
recording a missing-term failure, `Except.ok none`); then line 676 evaluates
`shutil.which`, which raises `NameError` because `shutil` is not among the
module's imported names.  An `Except.ok (some record)` — an actual search —
would require `shutil` to be bound. -/
def executeSearchCode (fs : PyFS) (env : SearchEnv) (root : List String) (args : String) :
    Except String (Option SearchRecord) :=
  match parseSearchArgs fs root args with
  | .error e => .error e
  | .ok none => .ok none
  | .ok (some ps) =>
    if moduleTopLevelNames.contains "shutil" then .ok (some (searchBody env ps.term ps.pathLog))
    else .error "NameError: name 'shutil' is not defined"

/-! ### Plan parsing (`plan_exploration`, lines 478-537) -/

/-- `re.sub(r"^\s*\d+\.\s*(\*\*|__)?", '', line)` (line 486): strip a leading
enumeration marker (digits and a dot) and optional markdown emphasis; if the
pattern does not match, the line is unchanged. -/
def stripEnumMark (s : String) : String :=
  let t := s.data.dropWhile isPySpace
  let ds := t.takeWhile Char.isDigit
  match ds, t.drop ds.length with
  | _ :: _, '.' :: rest =>
    let r := rest.dropWhile isPySpace
    let r2 := if r.take 2 = ['*', '*'] ∨ r.take 2 = ['_', '_'] then r.drop 2 else r
    String.mk r2
  | _, _ => s

/-- Line cleaning of `plan_exploration` (lines 486-488): enumeration-marker
removal, `strip()`, backtick `strip`, `strip()` again. -/
def cleanPlanLine (line : String) : String :=
  pyStrip (pyStripCharSet ['\x60'] (pyStrip (stripEnumMark line)))

/-- One alternative of `re.match(r"^(READ_FILE|SEARCH_CODE|ANALYZE)\s+(.*)",
cleaned, re.IGNORECASE)` (line 506): the verb case-insensitively, at least
one whitespace, then the argument tail, which the source strips
(`match.group(2).strip()`, line 510). -/
def tryVerb (v cleaned : String) : Option String :=
  let cs := cleaned.data
  let n := v.data.length
  if (cs.take n).map Char.toUpper = v.data
      ∧ (match cs.drop n with | c :: _ => isPySpace c | [] => false) = true then
    some (pyStrip (String.mk (cs.drop n)))
  else none

/-- The full verb alternation of line 506. -/
def matchVerbArgs (cleaned : String) : Option (String × String) :=
  match tryVerb "READ_FILE" cleaned with
  | some args => some ("READ_FILE", args)
  | none =>
    match tryVerb "SEARCH_CODE" cleaned with
    | some args => some ("SEARCH_CODE", args)
    | none =>
      match tryVerb "ANALYZE" cleaned with
      | some args => some ("ANALYZE", args)
      | none => none

/-- The parsing loop of `plan_exploration` (lines 484-524): accumulate
formatted steps and the `potential_finish` flag.  A sole `FINISH` line (the
response had exactly one non-empty line) sets the plan to `["FINISH"]` and
breaks; a mixed `FINISH` only sets the flag; a verb line appends
`VERB args` (quotes stripped from a `READ_FILE` argument, line 519);
anything else is logged and dropped. -/
def planParseLoop (total : Nat) : List String → List String → Bool → List String × Bool
  | [], plan, pf => (plan, pf)
  | line :: rest, plan, pf =>
    let cleaned := cleanPlanLine line
    if cleaned = "" then planParseLoop total rest plan pf
    else if pyUpper cleaned = "FINISH" then
      if total = 1 then (["FINISH"], true)
      else planParseLoop total rest plan true
    else
      match matchVerbArgs cleaned with
      | some va =>
        let args2 := if va.1 = "READ_FILE" then pyStripCharSet ['\'', '"'] va.2 else va.2
        planParseLoop total rest (plan ++ [va.1 ++ " " ++ args2]) pf
      | none => planParseLoop total rest plan pf

/-- `raw_lines` (line 482): split on newlines, strip, keep non-empty. -/
def rawLines (s : String) : List String :=
  ((splitChar '\n' [] s.data).map (fun l => pyStrip (String.mk l))).filter (fun l => l != "")

/-- The parsing part of `plan_exploration` (lines 478-537): from the raw model
response to the plan stored by `set_plan`.  Final decision (lines 527-537):
a `FINISH` seen with no other valid step yields `["FINISH"]`; otherwise the
collected steps; an empty parse yields the empty plan. -/
def planParse (planStr : String) : List String :=
  let raw := rawLines planStr
  let pp := planParseLoop raw.length raw [] false
  if pp.2 && pp.1.isEmpty then ["FINISH"] else pp.1

/-! ### The exploration loop (`run`, lines 1154-1222) -/

/-- The iteration-limit termination reason (line 1222):
`f"Limite de {max_iterations} itérations atteinte."`. -/
def limitReason (m : Nat) : String :=
  "Limite de " ++ toString m ++ " itérations atteinte."

/-- One-to-one functional model of the `while` loop of `run`
(lines 1159-1222), abstracting the external model backend into three
parameters: `planner n` is the plan produced by the n-th `plan_exploration`
call, `evalr n` the verdict of the n-th `evaluate_progress` call, and `fin
step` the boolean `execute_exploration_step` returns for a step (true exactly
when the step is, or is interpreted as, `FINISH`).  State: remaining `fuel`
(`maxIter - iteration`, so the `while iteration < max_iterations` guard is
the `fuel = 0` case, which is also the for-else branch assigning the
iteration-limit reason), the 1-based iteration counter, the planner and
evaluator call counters, and the current `exploration_plan`.  Returns the
final iteration count and the termination reason. -/
def explLoop (planner : Nat → List String) (evalr : Nat → Bool) (fin : String → Bool)
    (maxIter : Nat) : Nat → Nat → Nat → Nat → List String → Nat × String
  | 0, iter, _, _, _ => (iter, limitReason maxIter)
  | fuel + 1, iter, pc, ec, plan =>
    let iter' := iter + 1
    let replanned := if plan.isEmpty then (planner pc, pc + 1) else (plan, pc)
    if replanned.1.isEmpty then (iter', "Aucun plan d'exploration généré ou valide.")
    else if replanned.1.any fin then (iter', "Action FINISH rencontrée ou interprétée.")
    else if evalr ec then (iter', "L'IA estime avoir trouvé la réponse.")
    else
      let next := if iter' < maxIter then (planner replanned.2, replanned.2 + 1)
                  else (([] : List String), replanned.2)
      explLoop planner evalr fin maxIter fuel iter' next.2 (ec + 1) next.1

/-- The exploration phase of `run`: the initial `plan_exploration`
(line 1148) followed by the bounded loop. -/
def runExploration (planner : Nat → List String) (evalr : Nat → Bool)
    (fin : String → Bool) (maxIter : Nat) : Nat × String :=
  explLoop planner evalr fin maxIter maxIter 0 1 0 (planner 0)

/-! ### Concrete fixtures for the claim evaluations -/

/-- A resolved project root `/proj`. -/
def projRoot : List String := ["proj"]

/-- A tiny filesystem: the project root `/proj` contains one file
`README.md`. -/
def fsDemo : PyFS := ⟨[(["proj", "README.md"], mkAttrs 5 "hello")]⟩

/-- A knowledge base in the initial state: nothing explored, empty history. -/
def kbEmptyHistory : KB := ⟨"/proj", "Inconnu", none, [], [], [], []⟩

/-- A knowledge base whose `file_contents` dict received eleven files, in
insertion (= read) order `a.py … j.py` and then `z.py` last. -/
def kbElevenFiles : KB :=
  ⟨"/proj", "Python", none,
    [("a.py", "A"), ("b.py", "B"), ("c.py", "C"), ("d.py", "D"), ("e.py", "E"),
     ("f.py", "F"), ("g.py", "G"), ("h.py", "H"), ("i.py", "I"), ("j.py", "J"),
     ("z.py", "Z")],
    [], [], []⟩

/-- Modelled from the spec: "up to N most-recently-read files" — the last `n`
entries of the read sequence (the insertion-ordered `file_contents` dict),
used to compare the specified file selection with the implemented one. -/
def mostRecentlyReadPaths (kb : KB) (n : Nat) : List String :=
  (kb.fileContents.map Prod.fst).drop (kb.fileContents.length - n)

/-- Search environment: ripgrep present, invocation exits with code 2 (an
execution error, e.g. an invalid pattern) and no stdout. -/
def envRgExit2 : SearchEnv := ⟨true, .completed 2 [], [], none⟩

/-- Search environment: ripgrep present, invocation times out. -/
def envRgTimeout : SearchEnv := ⟨true, .timedOut, [], none⟩

/-! ### Helper lemmas -/

/-- `inParentsB` implies list prefix. -/
theorem inParentsB_isPre {root r : List String} (h : inParentsB root r = true) :
    root <+: r := by
  simp only [inParentsB, Bool.and_eq_true, decide_eq_true_eq] at h
  exact List.isPrefixOf_iff_prefix.mp h.1

/-- C1: for every input string, `_resolve_path` returns either `None` or an
absolute path equal to the project root or a descendant of it (the root's
component list is a prefix of the result); no input — including `../`-style
escapes and absolute paths outside the root — yields a path outside the
project root, because both branches check containment on the resolved form
before returning. -/
theorem resolvePath_containment (root : List String) (s : String) (r : List String)
    (h : resolvePath root s = some r) : root <+: r := by
  have key : ∀ x : List String, (inParentsB root x || root == x.dropLast) = true →
      root <+: x := by
    intro x hx
    simp only [Bool.or_eq_true] at hx
    rcases hx with h1 | h2
    · exact inParentsB_isPre h1
    · rw [beq_iff_eq] at h2
      rw [h2]
      exact List.dropLast_prefix _
  have key2 : ∀ x : List String, (inParentsB root x || root == x) = true →
      root <+: x := by
    intro x hx
    simp only [Bool.or_eq_true] at hx
    rcases hx with h1 | h2
    · exact inParentsB_isPre h1
    · rw [beq_iff_eq] at h2
      rw [h2]
  unfold resolvePath at h
  split at h
  · exact absurd h (by simp)
  · dsimp only at h
    split at h
    · split at h
      · rename_i hcond
        have hp := key _ hcond
        rwa [Option.some.inj h] at hp
      · exact absurd h (by simp)
    · split at h
      · rename_i hcond
        have hp := key2 _ hcond
        rwa [Option.some.inj h] at hp
      · exact absurd h (by simp)

/-- C1 witness: a concrete relative path resolves inside the root. -/
theorem resolvePath_containment_app : projRoot <+: ["proj", "src", "a.py"] :=
  resolvePath_containment projRoot "src/a.py" ["proj", "src", "a.py"] (by decide)

/-- The three shapes `_parse_search_args` can produce. -/
theorem parseSearchArgs_shapes (fs : PyFS) (root : List String) (args : String) :
    parseSearchArgs fs root args = .error "IndexError: no such group"
      ∨ parseSearchArgs fs root args = .ok none
      ∨ ∃ ps, parseSearchArgs fs root args = .ok (some ps) := by
  unfold parseSearchArgs
  cases matchQuotedTerm args with
  | some v => simp
  | none =>
    dsimp only
    split
    · simp
    · split <;> simp

/-- C2: no execution of `_execute_search_code` ever performs a search.  A
quoted term makes `_parse_search_args` evaluate `match.group(4)` on a
three-group regex (`IndexError`); an unquoted term reaches
`shutil.which('rg')` with `shutil` unbound (`NameError`); a missing term is
the recorded parse failure.  An `Except.ok (some record)` — an actual rg or
pure-Python search — is unreachable. -/
theorem executeSearchCode_never_searches (fs : PyFS) (env : SearchEnv)
    (root : List String) (args : String) :
    executeSearchCode fs env root args = .error "IndexError: no such group"
      ∨ executeSearchCode fs env root args = .error "NameError: name 'shutil' is not defined"
      ∨ executeSearchCode fs env root args = .ok none := by
  rcases parseSearchArgs_shapes fs root args with h | h | ⟨ps, h⟩
  · left
    simp [executeSearchCode, h]
  · right; right
    simp [executeSearchCode, h]
  · right; left
    simp only [executeSearchCode, h]
    have hc : moduleTopLevelNames.contains "shutil" = false := by decide
    simp [hc]
    decide

/-- C3 counterexample: with an empty exploration history (initial knowledge
base), `evaluate_progress` still issues exactly one model request and returns
whatever the model decides — here `true` on an `OUI` reply — instead of
returning `false` without a model call; no zero-history guard exists. -/
theorem evaluate_progress_no_empty_history_guard :
    kbEmptyHistory.explorationHistory = [] ∧
    evaluate_progress kbEmptyHistory "q" (fun _ => some "OUI") = (true, 1) := by
  exact ⟨rfl, rfl⟩

/-- C3 amended: `evaluate_progress` always issues exactly one model request,
history empty or not, and returns `true` exactly when the (stripped,
uppercased, dot-stripped) reply is `OUI`; an absent or different reply yields
`false`. -/
theorem evaluate_progress_one_request (kb : KB) (q : String)
    (oracle : String → Option String) :
    (evaluate_progress kb q oracle).2 = 1 ∧
    ((evaluate_progress kb q oracle).1 = true ↔
      ∃ r, ollamaRequest oracle (evalPromptText q (get_context_summary kb q false)) = some r
        ∧ cleanEvalResponse r = "OUI") := by
  unfold evaluate_progress
  cases h : ollamaRequest oracle (evalPromptText q (get_context_summary kb q false)) with
  | none => simp [h]
  | some ev =>
    dsimp only
    rw [h]
    constructor
    · rfl
    · by_cases hoeq : cleanEvalResponse ev = "OUI"
      · simp [hoeq]
      · simp [hoeq]

/-- C4: the claim that every error return of `read_file_content` starts with
`"Erreur:"` is wrong, and the handler consequence fails with it: for the step
`READ_FILE .`, `_resolve_path` accepts the project root itself, the reader's
security branch then rejects it with a message starting `"Erreur Sécurité:"`
— which does not start with `"Erreur:"` — so the `startswith` test of
`_execute_read_file` (line 632) classifies the error text as file content and
stores it. -/
theorem read_file_security_message_stored :
    resolvePath projRoot "." = some projRoot ∧
    read_file_content fsDemo [] projRoot "/proj"
      = "Erreur Sécurité: Tentative de lecture hors du dossier projet: '/proj'" ∧
    pyStartsWith (read_file_content fsDemo [] projRoot "/proj") "Erreur:" = false ∧
    readFileHandlerStores (read_file_content fsDemo [] projRoot "/proj") = true := by
  exact ⟨by decide, by decide, by decide, by decide⟩

/-- C5: the recording logic of `_execute_search_code` tags a timeout as a
failure (`Échec.`), but an rg exit code other than 0 and 1 leaves
`search_method` untouched, so the final recording tags the history entry
`Non trouvé.` — an execution error recorded as a genuine zero-match,
contradicting the function's own comment (line 724) and the claim. -/
theorem searchBody_exit_code_two_not_found_tag :
    (searchBody envRgExit2 "foo" "projet entier").historyEntry
      = "Recherché 'foo' dans projet entier (ripgrep (rg)). Non trouvé." ∧
    pyContains (searchBody envRgExit2 "foo" "projet entier").historyEntry "Non trouvé" = true ∧
    (searchBody envRgTimeout "foo" "projet entier").historyEntry
      = "Tentative recherche 'foo' dans projet entier (Erreur (rg timeout)). Échec." := by
  exact ⟨by decide, by decide, by decide⟩

/-- C6 counterexample: the project contains `README.md`; asking the reader
for `readme.md` — the same name up to case — returns the not-a-file error
instead of attempting any case-insensitive sibling match. -/
theorem read_file_ignores_case_sibling :
    fsDemo.isFile ["proj", "README.md"] = true ∧
    (pyUpper "readme.md" == pyUpper "README.md") = true ∧
    read_file_content fsDemo [] projRoot "/proj/readme.md"
      = "Erreur: 'readme.md' n'est pas un fichier valide ou n'existe pas." ∧
    (read_file_content fsDemo [] projRoot "/proj/readme.md" == "hello") = false := by
  exact ⟨by decide, by decide, by decide, by decide⟩

/-- C6 amended: when the exact-case resolved path is inside the project but
is not a file, `read_file_content` returns the not-a-file error immediately;
no case-insensitive sibling lookup is performed (the result does not depend
on which other files exist). -/
theorem read_file_not_a_file_error (fs : PyFS) (cwd root : List String) (s : String)
    (habs : (parsePath s).absolute = true)
    (hsec : inParentsB root (resolveComps [] (parsePath s).comps) = true)
    (hnf : fs.isFile (resolveComps [] (parsePath s).comps) = false) :
    read_file_content fs cwd root s =
      "Erreur: '" ++ relPathStr root (resolveComps [] (parsePath s).comps)
        ++ "' n'est pas un fichier valide ou n'existe pas." := by
  unfold read_file_content
  simp only [habs, if_true, hsec, Bool.true_or, Bool.not_true, hnf, Bool.not_false,
    Bool.false_eq_true, if_false, if_true]

/-- C6 amended, witness. -/
theorem read_file_not_a_file_error_app :
    read_file_content fsDemo [] projRoot "/proj/readme.md" =
      "Erreur: '" ++ relPathStr projRoot (resolveComps [] (parsePath "/proj/readme.md").comps)
        ++ "' n'est pas un fichier valide ou n'existe pas." :=
  read_file_not_a_file_error fsDemo [] projRoot "/proj/readme.md"
    (by decide) (by decide) (by decide)

/-- C7: plan parsing of the mixed literal yields exactly the two actions with
the `FINISH` line dropped (not a sole-Finish plan), while the literal
`FINISH` alone yields exactly `["FINISH"]`. -/
theorem planParse_literal_outputs :
    planParse "1. READ_FILE src/app.py\n2. SEARCH_CODE \"TODO\" dans src\n3. FINISH"
      = ["READ_FILE src/app.py", "SEARCH_CODE \"TODO\" dans src"] ∧
    planParse "FINISH" = ["FINISH"] := by
  exact ⟨by decide, by decide⟩

/-- C8 counterexample: a planner that always yields an empty plan never
signals Finish and the evaluator never affirms, yet the loop stops after the
first iteration with the no-valid-plan reason — not after six iterations with
the iteration-limit reason. -/
theorem runExploration_empty_plans_early_stop :
    runExploration (fun _ => []) (fun _ => false) (fun _ => false) 6
      = (1, "Aucun plan d'exploration généré ou valide.") ∧
    (limitReason 6 == "Aucun plan d'exploration généré ou valide.") = false := by
  exact ⟨by decide, by decide⟩

/-- Unfolding of one non-final loop iteration, case `iteration < max`. -/
theorem explLoop_succ_lt {planner : Nat → List String} {evalr : Nat → Bool}
    {fin : String → Bool} {maxIter k iter pc ec : Nat} {plan : List String}
    (hpe : plan.isEmpty = false) (hany : plan.any fin = false) (hev : evalr ec = false)
    (hlt : iter + 1 < maxIter) :
    explLoop planner evalr fin maxIter (k + 1) iter pc ec plan
      = explLoop planner evalr fin maxIter k (iter + 1) (pc + 1) (ec + 1) (planner pc) := by
  conv_lhs => unfold explLoop
  simp [hpe, hany, hev, hlt]

/-- Unfolding of one non-final loop iteration, case `iteration = max` (no
re-planning; the next loop test fails). -/
theorem explLoop_succ_last {planner : Nat → List String} {evalr : Nat → Bool}
    {fin : String → Bool} {maxIter k iter pc ec : Nat} {plan : List String}
    (hpe : plan.isEmpty = false) (hany : plan.any fin = false) (hev : evalr ec = false)
    (hlt : ¬ iter + 1 < maxIter) :
    explLoop planner evalr fin maxIter (k + 1) iter pc ec plan
      = explLoop planner evalr fin maxIter k (iter + 1) pc (ec + 1) [] := by
  conv_lhs => unfold explLoop
  simp [hpe, hany, hev, hlt]

/-- C8 amended: whenever every planning call yields a non-empty plan, no
executed step signals Finish, and the evaluator never affirms sufficiency,
the exploration loop runs exactly `max_iterations` iterations and terminates
with the iteration-limit reason — it never loops indefinitely.  (The original
claim omitted the non-empty-plan condition; an always-empty planner stops
early with the no-valid-plan reason, see the counterexample.) -/
theorem runExploration_iteration_limit (planner : Nat → List String) (evalr : Nat → Bool)
    (fin : String → Bool) (maxIter : Nat)
    (hp : ∀ n, planner n ≠ []) (hf : ∀ st, fin st = false) (he : ∀ n, evalr n = false) :
    runExploration planner evalr fin maxIter = (maxIter, limitReason maxIter) := by
  have hany : ∀ l : List String, l.any fin = false := by
    intro l
    induction l with
    | nil => rfl
    | cons a t ih => simp [List.any_cons, hf, ih]
  suffices key : ∀ fuel iter pc ec plan, iter + fuel = maxIter → plan ≠ [] →
      explLoop planner evalr fin maxIter fuel iter pc ec plan
        = (maxIter, limitReason maxIter) by
    exact key maxIter 0 1 0 (planner 0) (by omega) (hp 0)
  intro fuel
  induction fuel with
  | zero =>
    intro iter pc ec plan hsum hne
    have hiter : iter = maxIter := by omega
    subst hiter
    rfl
  | succ k ih =>
    intro iter pc ec plan hsum hne
    have hpe : plan.isEmpty = false := by
      cases plan with
      | nil => exact absurd rfl hne
      | cons a t => rfl
    by_cases hlt : iter + 1 < maxIter
    · rw [explLoop_succ_lt hpe (hany plan) (he ec) hlt]
      exact ih (iter + 1) (pc + 1) (ec + 1) (planner pc) (by omega) (hp pc)
    · rw [explLoop_succ_last hpe (hany plan) (he ec) hlt]
      have hk : k = 0 := by omega
      have hiter : iter + 1 = maxIter := by omega
      subst hk
      simp [explLoop, hiter]

/-- C8 amended, witness: with a planner always producing one `ANALYZE` step,
a never-affirming evaluator and no Finish, the loop runs the default six
iterations and stops with the iteration-limit reason. -/
theorem runExploration_iteration_limit_app :
    runExploration (fun _ => ["ANALYZE x"]) (fun _ => false) (fun _ => false) 6
      = (6, limitReason 6) :=
  runExploration_iteration_limit (fun _ => ["ANALYZE x"]) (fun _ => false) (fun _ => false) 6
    (fun _ => by simp) (fun _ => rfl) (fun _ => rfl)

/-- C9 counterexample: with eleven files read, `z.py` read last, the summary
displays the first ten file paths in alphabetical order — dropping the most
recently read `z.py` — not the ten most recently read files. -/
theorem filesShown_not_most_recent :
    (filesShown kbElevenFiles).map Prod.fst
      = ["a.py", "b.py", "c.py", "d.py", "e.py", "f.py", "g.py", "h.py", "i.py", "j.py"] ∧
    mostRecentlyReadPaths kbElevenFiles 10
      = ["b.py", "c.py", "d.py", "e.py", "f.py", "g.py", "h.py", "i.py", "j.py", "z.py"] ∧
    ((filesShown kbElevenFiles).map Prod.fst == mostRecentlyReadPaths kbElevenFiles 10)
      = false := by
  exact ⟨by decide, by decide, by decide⟩

/-- String length distributes over append. -/
theorem pyLen_append (a b : String) : pyLen (a ++ b) = pyLen a + pyLen b := by
  simp [pyLen, String.data_append]

/-- C9 amended: the context summary is deterministically bounded — the JSON
structure rendering is cut at the 2500-character cap with a truncation
suffix, at most 10 file entries appear and they are the first 10 in
alphabetical path order (not the most recently read; see the counterexample),
surplus collapsed into a count, and at most the last 15 entries of the
concatenated notes-then-history list appear, older ones collapsed into an
"omitted" note. -/
theorem get_context_summary_bounds (kb : KB) (s : String) :
    (filesShown kb).length ≤ MAX_FILES_IN_SUMMARY ∧
    filesShown kb = (sortByKey kb.fileContents).take MAX_FILES_IN_SUMMARY ∧
    (combinedShown kb).length ≤ MAX_HISTORY_ITEMS_IN_SUMMARY ∧
    pyLen (cappedStructure s) ≤ MAX_STRUCTURE_LENGTH + pyLen structTruncSuffix := by
  refine ⟨?_, rfl, ?_, ?_⟩
  · unfold filesShown
    exact List.length_take_le _ _
  · unfold combinedShown
    simp only [List.length_drop]
    omega
  · unfold cappedStructure
    split
    · rw [pyLen_append]
      have h1 : pyLen (pyTake s MAX_STRUCTURE_LENGTH) ≤ MAX_STRUCTURE_LENGTH := by
        simp [pyLen, pyTake]
      omega
    · rename_i hle
      omega

/-- C10 counterexample: the natural-language synonym lines `Read …` and
`Examine …` match no verb pattern and are dropped, yielding an empty plan —
they do not become actions. -/
theorem planParse_drops_synonym_lines :
    planParse "1. Read src/app.py\n2. Examine src/main.py" = [] := by decide

/-- `matchVerbArgs` only ever recognises the three exact verbs. -/
theorem matchVerbArgs_verb {cleaned : String} {va : String × String}
    (h : matchVerbArgs cleaned = some va) :
    va.1 = "READ_FILE" ∨ va.1 = "SEARCH_CODE" ∨ va.1 = "ANALYZE" := by
  unfold matchVerbArgs at h
  cases h1 : tryVerb "READ_FILE" cleaned with
  | some args =>
    rw [h1] at h
    obtain rfl := Option.some.inj h
    left; rfl
  | none =>
    rw [h1] at h
    cases h2 : tryVerb "SEARCH_CODE" cleaned with
    | some args =>
      rw [h2] at h
      obtain rfl := Option.some.inj h
      right; left; rfl
    | none =>
      rw [h2] at h
      cases h3 : tryVerb "ANALYZE" cleaned with
      | some args =>
        rw [h3] at h
        obtain rfl := Option.some.inj h
        right; right; rfl
      | none =>
        rw [h3] at h
        exact absurd h (by simp)

/-- A string starts with its own first summand. -/
theorem pyStartsWith_append (a b : String) : pyStartsWith (a ++ b) a = true := by
  unfold pyStartsWith
  rw [List.isPrefixOf_iff_prefix, String.data_append]
  exact List.prefix_append _ _

/-- Every step the parsing loop accumulates is `FINISH` or starts with one of
the three exact verbs. -/
theorem planParseLoop_wf (total : Nat) (lines : List String) :
    ∀ (plan : List String) (pf : Bool),
      (∀ st ∈ plan, st = "FINISH"
        ∨ pyStartsWith st "READ_FILE " = true
        ∨ pyStartsWith st "SEARCH_CODE " = true
        ∨ pyStartsWith st "ANALYZE " = true) →
      ∀ st ∈ (planParseLoop total lines plan pf).1, st = "FINISH"
        ∨ pyStartsWith st "READ_FILE " = true
        ∨ pyStartsWith st "SEARCH_CODE " = true
        ∨ pyStartsWith st "ANALYZE " = true := by
  induction lines with
  | nil =>
    intro plan pf hplan
    exact hplan
  | cons line rest ih =>
    intro plan pf hplan
    rw [planParseLoop]
    dsimp only
    split
    · exact ih plan pf hplan
    · split
      · split
        · intro st hst
          simp only [List.mem_singleton] at hst
          exact Or.inl hst
        · exact ih plan true hplan
      · split
        · rename_i va hva
          apply ih
          intro st hst
          rw [List.mem_append] at hst
          rcases hst with hin | hnew
          · exact hplan st hin
          · simp only [List.mem_singleton] at hnew
            subst hnew
            rcases matchVerbArgs_verb hva with h1 | h1 | h1 <;> rw [h1]
            · right; left
              rw [show ("READ_FILE" : String) ++ " " = "READ_FILE " from rfl]
              exact pyStartsWith_append _ _
            · right; right; left
              rw [show ("SEARCH_CODE" : String) ++ " " = "SEARCH_CODE " from rfl]
              exact pyStartsWith_append _ _
            · right; right; right
              rw [show ("ANALYZE" : String) ++ " " = "ANALYZE " from rfl]
              exact pyStartsWith_append _ _
        · exact ih plan pf hplan

/-- C10 amended: plan parsing recognises only the exact verbs `READ_FILE`,
`SEARCH_CODE`, `ANALYZE` (case-insensitively) after stripping enumeration
markers and markdown emphasis — every parsed step is `FINISH` or starts with
one of the exact verbs; natural-language synonym lines are logged and
dropped, not converted to actions. -/
theorem planParse_actions_exact_verbs (s st : String) (h : st ∈ planParse s) :
    st = "FINISH"
      ∨ pyStartsWith st "READ_FILE " = true
      ∨ pyStartsWith st "SEARCH_CODE " = true
      ∨ pyStartsWith st "ANALYZE " = true := by
  unfold planParse at h
  dsimp only at h
  split at h
  · simp only [List.mem_singleton] at h
    exact Or.inl h
  · exact planParseLoop_wf _ _ [] false (by simp) st h

/-- C10 amended, witness. -/
theorem planParse_actions_exact_verbs_app :
    ("ANALYZE foo" : String) = "FINISH"
      ∨ pyStartsWith "ANALYZE foo" "READ_FILE " = true
      ∨ pyStartsWith "ANALYZE foo" "SEARCH_CODE " = true
      ∨ pyStartsWith "ANALYZE foo" "ANALYZE " = true :=
  planParse_actions_exact_verbs "ANALYZE foo" "ANALYZE foo" (by decide)

end DebugAgent
